import Mathlib

set_option maxHeartbeats 1000000

/-!
Shallow embedding of the connection-dispatch supervisor (the postmaster)
of this repository.  Pure state is collected in `PMState`; every C
function touching it becomes a Lean function from old state (plus the
oracle values for `fork`-style calls) to new state together with the
signals it sends and the exit it may request.  Machine integers are
modelled as `Nat` (all involved quantities are small and non-negative in
the source), process ids as `Nat` with `0` meaning "no such child", and
byte buffers as `List Nat`.
-/

namespace Postmaster

/-- Signals the postmaster sends to its children (`kill` targets). -/
inductive Sig where
  | SIGINT
  | SIGTERM
  | SIGQUIT
  | SIGUSR2
  | SIGSTOP
  deriving DecidableEq, Repr

/-- Result codes of `canAcceptConnections` (enum CAC_state). -/
inductive CAC_state where
  | CAC_OK
  | CAC_STARTUP
  | CAC_SHUTDOWN
  | CAC_RECOVERY
  | CAC_TOOMANY
  deriving DecidableEq, Repr

/-- One entry of the postmaster's list of live backends (struct Backend):
the child's pid and the cancel key assigned at fork time. -/
structure Backend where
  pid : Nat
  cancel_key : Nat
  deriving DecidableEq, Repr

/-- Shutdown level `NoShutdown` (the C global `Shutdown` is an int). -/
def NoShutdown : Nat := 0

/-- Shutdown level `SmartShutdown`. -/
def SmartShutdown : Nat := 1

/-- Shutdown level `FastShutdown`. -/
def FastShutdown : Nat := 2

/-- The postmaster's mutable globals that the embedded functions read and
write: shutdown level, the special children's pids (0 = absent), the
crash latch `FatalError`, the backend list, and the configuration knobs
consulted by the embedded code paths. -/
structure PMState where
  Shutdown : Nat
  StartupPID : Nat
  BgWriterPID : Nat
  PgArchPID : Nat
  PgStatPID : Nat
  SysLoggerPID : Nat
  FatalError : Bool
  BackendList : List Backend
  MaxBackends : Nat
  SendStop : Bool
  XLogArchivingActive : Bool
  deriving DecidableEq, Repr

/-- `CountChildren`: length of the backend list (regular backends only). -/
def CountChildren (s : PMState) : Nat :=
  s.BackendList.length

/-- `canAcceptConnections`: check whether database state allows a new
connection, in the source's test order. -/
def canAcceptConnections (s : PMState) : CAC_state :=
  if s.Shutdown > NoShutdown then .CAC_SHUTDOWN
  else if s.StartupPID ≠ 0 then .CAC_STARTUP
  else if s.FatalError then .CAC_RECOVERY
  else if CountChildren s ≥ 2 * s.MaxBackends then .CAC_TOOMANY
  else .CAC_OK

/-- Reject condition "startup child present". -/
def condStartup (s : PMState) : Prop := s.StartupPID ≠ 0

/-- Reject condition "shutdown in progress" (life-phase at least smart
shutdown, i.e. `Shutdown > NoShutdown`). -/
def condShutdown (s : PMState) : Prop := s.Shutdown > NoShutdown

/-- Reject condition "crash recovery in progress" (`FatalError` latch). -/
def condRecovery (s : PMState) : Prop := s.FatalError = true

/-- Reject condition "saturated" (backend count at or above twice the
configured maximum). -/
def condSaturated (s : PMState) : Prop := CountChildren s ≥ 2 * s.MaxBackends

instance (s : PMState) : Decidable (condStartup s) := by
  unfold condStartup; infer_instance

instance (s : PMState) : Decidable (condShutdown s) := by
  unfold condShutdown; infer_instance

instance (s : PMState) : Decidable (condRecovery s) := by
  unfold condRecovery; infer_instance

instance (s : PMState) : Decidable (condSaturated s) := by
  unfold condSaturated; infer_instance

/-- Effect of `processCancelRequest`: the signals it sends to backends and
the bytes it writes back to the requesting client (the function performs
no write to the client socket, mirroring its header comment "Nothing is
sent back to the client"). -/
structure CancelEffect where
  kills : List (Nat × Sig)
  sentToClient : List Nat
  deriving DecidableEq, Repr

/-- Walk of the backend list inside `processCancelRequest`: stop at the
first entry whose pid equals the request's pid; send SIGINT only if that
entry's cancel key also matches, otherwise return without signalling;
an exhausted list signals nothing. -/
def cancelScan (bl : List Backend) (backendPID cancelAuthCode : Nat) :
    List (Nat × Sig) :=
  match bl with
  | [] => []
  | bp :: rest =>
      if bp.pid = backendPID then
        if bp.cancel_key = cancelAuthCode then [(bp.pid, Sig.SIGINT)] else []
      else cancelScan rest backendPID cancelAuthCode

/-- `processCancelRequest` on an already-decoded cancel packet. -/
def processCancelRequest (bl : List Backend) (backendPID cancelAuthCode : Nat) :
    CancelEffect :=
  { kills := cancelScan bl backendPID cancelAuthCode
    sentToClient := [] }

/-- `SignalChildren`: send the given signal to every backend in the list. -/
def SignalChildren (s : PMState) (sig : Sig) : List (Nat × Sig) :=
  s.BackendList.map (fun bp => (bp.pid, sig))

/-- Result of a signal-handler style routine: the new globals, the signals
sent, and `some c` when `ExitPostmaster c` was reached. -/
structure HandlerOut where
  s : PMState
  kills : List (Nat × Sig)
  exitCode : Option Nat
  deriving DecidableEq, Repr

/-- Shared tail of the smart and fast branches of `pmdie` once the backend
list is empty: if a startup child is present or `FatalError` is set,
leave the rest to the reaper; otherwise start the bgwriter if absent
(`startBgWriterPid` is the pid `StartBackgroundWriter` would return, 0 on
failure), tell it to shut down with SIGUSR2, and tell archiver and stats
to quit. -/
def pmdieShutdownTail (s : PMState) (startBgWriterPid : Nat) : HandlerOut :=
  if s.StartupPID ≠ 0 ∨ s.FatalError then ⟨s, [], none⟩
  else
    let s' := if s.BgWriterPID = 0 then { s with BgWriterPID := startBgWriterPid } else s
    ⟨s',
      (if s'.BgWriterPID ≠ 0 then [(s'.BgWriterPID, Sig.SIGUSR2)] else []) ++
      (if s'.PgArchPID ≠ 0 then [(s'.PgArchPID, Sig.SIGQUIT)] else []) ++
      (if s'.PgStatPID ≠ 0 then [(s'.PgStatPID, Sig.SIGQUIT)] else []),
      none⟩

/-- `pmdie`: the postmaster's handler for SIGTERM (smart shutdown), SIGINT
(fast shutdown) and SIGQUIT (immediate shutdown).  A smart request while
`Shutdown >= SmartShutdown`, and a fast request while
`Shutdown >= FastShutdown`, fall out of the switch without touching any
state.  SIGQUIT signals every special child and backend with SIGQUIT and
exits with code 0.  Signals outside the switch do nothing. -/
def pmdie (s : PMState) (postgres_signal_arg : Sig) (startBgWriterPid : Nat) :
    HandlerOut :=
  match postgres_signal_arg with
  | .SIGTERM =>
      if s.Shutdown ≥ SmartShutdown then ⟨s, [], none⟩
      else
        let s₁ := { s with Shutdown := SmartShutdown }
        if s₁.BackendList ≠ [] then ⟨s₁, [], none⟩
        else pmdieShutdownTail s₁ startBgWriterPid
  | .SIGINT =>
      if s.Shutdown ≥ FastShutdown then ⟨s, [], none⟩
      else
        let s₁ := { s with Shutdown := FastShutdown }
        if s₁.BackendList ≠ [] then
          if ¬ s₁.FatalError then ⟨s₁, SignalChildren s₁ Sig.SIGTERM, none⟩
          else ⟨s₁, [], none⟩
        else pmdieShutdownTail s₁ startBgWriterPid
  | .SIGQUIT =>
      ⟨s,
        (if s.StartupPID ≠ 0 then [(s.StartupPID, Sig.SIGQUIT)] else []) ++
        (if s.BgWriterPID ≠ 0 then [(s.BgWriterPID, Sig.SIGQUIT)] else []) ++
        (if s.PgArchPID ≠ 0 then [(s.PgArchPID, Sig.SIGQUIT)] else []) ++
        (if s.PgStatPID ≠ 0 then [(s.PgStatPID, Sig.SIGQUIT)] else []) ++
        (if s.BackendList ≠ [] then SignalChildren s Sig.SIGQUIT else []),
        some 0⟩
  | _ => ⟨s, [], none⟩

/-- Outcome of `fork()` as seen by the postmaster: failure (a negative
return) or a new child with the given pid. -/
inductive ForkOutcome where
  | failure
  | success (pid : Nat)
  deriving DecidableEq, Repr

/-- Return codes STATUS_OK / STATUS_ERROR. -/
inductive PMStatus where
  | STATUS_OK
  | STATUS_ERROR
  deriving DecidableEq, Repr

/-- `report_fork_failure_to_client`: set the socket non-blocking and, only
if that succeeds, try a single one-shot send of a V2-protocol error
string; no retry. -/
def report_fork_failure_to_client (noblockOk : Bool) (msg : String) :
    List String :=
  if noblockOk then [msg] else []

/-- The error string `report_fork_failure_to_client` formats. -/
def forkFailureMsg : String :=
  "Ecould not fork new process for connection"

/-- Outcome of `BackendStartup`: the return code, the backend list after
the call, the canAcceptConnections verdict stored into the port (none if
the malloc failed before reaching that store), any error packet written
to the client, and the pid of the spawned worker (none if no child was
created). -/
structure BackendStartupOut where
  status : PMStatus
  BackendList : List Backend
  portCac : Option CAC_state
  clientReply : List String
  spawnedPid : Option Nat
  deriving DecidableEq, Repr

/-- `BackendStartup`: draw the cancel key (`MyCancelKey`, passed in as the
value `PostmasterRandom` returned), malloc the Backend row (failure is an
error return before any fork), store the admission verdict into the port,
flush stdio, fork; on fork failure free the row, report to the client
best-effort and return STATUS_ERROR; on success fill the row with the
child pid and cancel key and link it at the head of `BackendList`. -/
def BackendStartup (s : PMState) (MyCancelKey : Nat) (mallocOk : Bool)
    (fork : ForkOutcome) (noblockOk : Bool) : BackendStartupOut :=
  if ¬ mallocOk then
    ⟨.STATUS_ERROR, s.BackendList, none, [], none⟩
  else
    match fork with
    | .failure =>
        ⟨.STATUS_ERROR, s.BackendList, some (canAcceptConnections s),
          report_fork_failure_to_client noblockOk forkFailureMsg, none⟩
    | .success pid =>
        ⟨.STATUS_OK, { pid := pid, cancel_key := MyCancelKey } :: s.BackendList,
          some (canAcceptConnections s), [], some pid⟩

/-- Remove the first backend-list entry with the given pid (the `DLRemove`
plus `break` loop of `CleanupBackend`). -/
def removeFirstPid (pid : Nat) : List Backend → List Backend
  | [] => []
  | bp :: rest => if bp.pid = pid then rest else bp :: removeFirstPid pid rest

/-- `HandleChildCrash`: remove every entry of the crashed pid from the
backend list while signalling each surviving backend with SIGQUIT (or
SIGSTOP when `SendStop`), unless `FatalError` was already set; clear
`BgWriterPID` if the crashed child is the bgwriter, else signal it too;
likewise power-cycle archiver and stats; finally latch `FatalError`. -/
def HandleChildCrash (s : PMState) (pid : Nat) : PMState × List (Nat × Sig) :=
  let stopSig := if s.SendStop then Sig.SIGSTOP else Sig.SIGQUIT
  let survivors := s.BackendList.filter (fun bp => bp.pid ≠ pid)
  let backendKills :=
    if ¬ s.FatalError then survivors.map (fun bp => (bp.pid, stopSig)) else []
  let s₁ := { s with BackendList := survivors }
  let s₂ := if pid = s₁.BgWriterPID then { s₁ with BgWriterPID := 0 } else s₁
  let bgKills :=
    if pid ≠ s.BgWriterPID ∧ s.BgWriterPID ≠ 0 ∧ ¬ s.FatalError then
      [(s.BgWriterPID, stopSig)]
    else []
  let archKills :=
    if s.PgArchPID ≠ 0 ∧ ¬ s.FatalError then [(s.PgArchPID, Sig.SIGQUIT)] else []
  let statKills :=
    if s.PgStatPID ≠ 0 ∧ ¬ s.FatalError then [(s.PgStatPID, Sig.SIGQUIT)] else []
  ({ s₂ with FatalError := true },
    backendKills ++ bgKills ++ archKills ++ statKills)

/-- `CleanupBackend`: a nonzero exit status goes to `HandleChildCrash`;
a zero exit just unlinks the backend from the list. -/
def CleanupBackend (s : PMState) (pid exitstatus : Nat) :
    PMState × List (Nat × Sig) :=
  if exitstatus ≠ 0 then HandleChildCrash s pid
  else ({ s with BackendList := removeFirstPid pid s.BackendList }, [])

/-- Oracle values for the child-starting calls the reaper makes: each is
the pid the call would return, 0 meaning failure. -/
structure Forks where
  StartBackgroundWriter : Nat
  pgarch_start : Nat
  pgstat_start : Nat
  SysLogger_Start : Nat
  StartupDataBase : Nat
  deriving DecidableEq, Repr

/-- One iteration of the reaper's wait loop, classifying the dead child
`pid` with exit status `exitstatus` exactly in the source's test order:
startup child (nonzero exit ⇒ `ExitPostmaster 1`; zero exit clears
`FatalError`, cranks up the bgwriter and, depending on `Shutdown`, kicks
it to shut down or starts archiver/stats), bgwriter (clean exit during a
shutdown with no backends and no fatal error ⇒ `ExitPostmaster 0`, any
other exit ⇒ `HandleChildCrash`), archiver, stats collector, system
logger (each just restarted per policy), else a regular backend
(`CleanupBackend`). -/
def reaper1 (f : Forks) (s : PMState) (pid exitstatus : Nat) : HandlerOut :=
  if s.StartupPID ≠ 0 ∧ pid = s.StartupPID then
    let s₁ := { s with StartupPID := 0 }
    if exitstatus ≠ 0 then ⟨s₁, [], some 1⟩
    else
      let s₂ := { s₁ with FatalError := false,
                          BgWriterPID := f.StartBackgroundWriter }
      if s₂.Shutdown > NoShutdown ∧ s₂.BgWriterPID ≠ 0 then
        ⟨s₂, [(s₂.BgWriterPID, Sig.SIGUSR2)], none⟩
      else if s₂.Shutdown = NoShutdown then
        let s₃ := if s₂.XLogArchivingActive ∧ s₂.PgArchPID = 0 then
                    { s₂ with PgArchPID := f.pgarch_start } else s₂
        let s₄ := if s₃.PgStatPID = 0 then
                    { s₃ with PgStatPID := f.pgstat_start } else s₃
        ⟨s₄, [], none⟩
      else ⟨s₂, [], none⟩
  else if s.BgWriterPID ≠ 0 ∧ pid = s.BgWriterPID then
    let s₁ := { s with BgWriterPID := 0 }
    if exitstatus = 0 ∧ s₁.Shutdown > NoShutdown ∧ ¬ s₁.FatalError ∧
        s₁.BackendList = [] then
      ⟨s₁, [], some 0⟩
    else
      let r := HandleChildCrash s₁ pid
      ⟨r.1, r.2, none⟩
  else if s.PgArchPID ≠ 0 ∧ pid = s.PgArchPID then
    let s₁ := { s with PgArchPID := 0 }
    let s₂ := if s₁.XLogArchivingActive ∧ s₁.StartupPID = 0 ∧ ¬ s₁.FatalError ∧
                  s₁.Shutdown = NoShutdown then
                { s₁ with PgArchPID := f.pgarch_start } else s₁
    ⟨s₂, [], none⟩
  else if s.PgStatPID ≠ 0 ∧ pid = s.PgStatPID then
    let s₁ := { s with PgStatPID := 0 }
    let s₂ := if s₁.StartupPID = 0 ∧ ¬ s₁.FatalError ∧ s₁.Shutdown = NoShutdown
              then { s₁ with PgStatPID := f.pgstat_start } else s₁
    ⟨s₂, [], none⟩
  else if s.SysLoggerPID ≠ 0 ∧ pid = s.SysLoggerPID then
    ⟨{ s with SysLoggerPID := f.SysLogger_Start }, [], none⟩
  else
    let r := CleanupBackend s pid exitstatus
    ⟨r.1, r.2, none⟩

/-- The code after the reaper's wait loop: under `FatalError`, wait for
backends, startup child and bgwriter to drain, then reinitialize shared
memory and launch a new startup child; otherwise under a pending
shutdown with backends and startup child drained, start the bgwriter if
absent and kick it (SIGUSR2), and tell archiver and stats to quit. -/
def reaperFinish (f : Forks) (s : PMState) : HandlerOut :=
  if s.FatalError then
    if s.BackendList ≠ [] ∨ s.StartupPID ≠ 0 ∨ s.BgWriterPID ≠ 0 then
      ⟨s, [], none⟩
    else ⟨{ s with StartupPID := f.StartupDataBase }, [], none⟩
  else if s.Shutdown > NoShutdown then
    if s.BackendList ≠ [] ∨ s.StartupPID ≠ 0 then ⟨s, [], none⟩
    else
      let s' := if s.BgWriterPID = 0 then
                  { s with BgWriterPID := f.StartBackgroundWriter } else s
      ⟨s',
        (if s'.BgWriterPID ≠ 0 then [(s'.BgWriterPID, Sig.SIGUSR2)] else []) ++
        (if s'.PgArchPID ≠ 0 then [(s'.PgArchPID, Sig.SIGQUIT)] else []) ++
        (if s'.PgStatPID ≠ 0 then [(s'.PgStatPID, Sig.SIGQUIT)] else []),
        none⟩
  else ⟨s, [], none⟩

/-- The reaper's wait loop over the pending child-exit notifications,
stopping early when an iteration exits the postmaster, then the
post-loop recovery/shutdown logic. -/
def reaperLoop (f : Forks) (s : PMState) (events : List (Nat × Nat))
    (acc : List (Nat × Sig)) : HandlerOut :=
  match events with
  | [] =>
      let fin := reaperFinish f s
      ⟨fin.s, acc ++ fin.kills, fin.exitCode⟩
  | (pid, st) :: rest =>
      let r := reaper1 f s pid st
      match r.exitCode with
      | some c => ⟨r.s, acc ++ r.kills, some c⟩
      | none => reaperLoop f r.s rest (acc ++ r.kills)

/-- `reaper`: drain the given child-exit notifications and run the
post-loop logic. -/
def reaper (f : Forks) (s : PMState) (events : List (Nat × Nat)) : HandlerOut :=
  reaperLoop f s events []

/-- Byte `i` of the startup-packet buffer.  `palloc0` zero-fills the
buffer one byte past the declared length (and pads short old-style
packets), so reads past the byte list yield 0. -/
def byteAt (body : List Nat) (i : Nat) : Nat :=
  body.getD i 0

/-- The C string starting at offset `off` of the zero-padded buffer: the
bytes up to but excluding the first NUL. -/
def cstringAt (body : List Nat) (off : Nat) : List Nat :=
  (body.drop off).takeWhile (fun b => b ≠ 0)

/-- `ntohl` of four bytes in wire (big-endian) order. -/
def ntohl4 (b0 b1 b2 b3 : Nat) : Nat :=
  (b0 % 256) * 16777216 + (b1 % 256) * 65536 + (b2 % 256) * 256 + (b3 % 256)

/-- Big-endian encoding of a 32-bit word as four bytes. -/
def word32be (v : Nat) : List Nat :=
  [v / 16777216 % 256, v / 65536 % 256, v / 256 % 256, v % 256]

/-- Modelled from the spec: the protocol-number macros of the frontend
protocol header are not under src/; the spec describes the discriminator
as a 32-bit big-endian `MAJOR.MINOR` version, major in the high 16 bits. -/
def PG_PROTOCOL (m n : Nat) : Nat := m * 65536 + n

/-- Major half of a protocol number. -/
def PG_PROTOCOL_MAJOR (v : Nat) : Nat := v / 65536

/-- Minor half of a protocol number. -/
def PG_PROTOCOL_MINOR (v : Nat) : Nat := v % 65536

/-- Modelled from the spec: earliest supported protocol version (1.0);
the constant lives in the protocol header, which is not under src/. -/
def PG_PROTOCOL_EARLIEST : Nat := PG_PROTOCOL 1 0

/-- Modelled from the spec: latest supported protocol version (3.0). -/
def PG_PROTOCOL_LATEST : Nat := PG_PROTOCOL 3 0

/-- Modelled from the spec: the cancel-request discriminator value
(1234.5678 in the protocol header, which is not under src/). -/
def CANCEL_REQUEST_CODE : Nat := PG_PROTOCOL 1234 5678

/-- Modelled from the spec: the secure-negotiation discriminator value
(1234.5679 in the protocol header, which is not under src/). -/
def NEGOTIATE_SSL_CODE : Nat := PG_PROTOCOL 1234 5679

/-- Modelled from the spec: the fixed maximum startup-packet length bound
(`MAX_STARTUP_PACKET_LENGTH`, from the protocol header not under src/). -/
def MAX_STARTUP_PACKET_LENGTH : Nat := 10000

/-- Modelled from the spec: the system name limit NAMEDATALEN (64, from a
header not under src/), to which database and user names are truncated. -/
def NAMEDATALEN : Nat := 64

/-- The version test of `ProcessStartupPacket`, verbatim: reject if the
major is below the earliest supported, above the latest supported, or
equal to the latest with a minor above the latest supported minor. -/
def unsupportedVersion (proto : Nat) : Bool :=
  PG_PROTOCOL_MAJOR proto < PG_PROTOCOL_MAJOR PG_PROTOCOL_EARLIEST ||
  PG_PROTOCOL_MAJOR proto > PG_PROTOCOL_MAJOR PG_PROTOCOL_LATEST ||
  (PG_PROTOCOL_MAJOR proto == PG_PROTOCOL_MAJOR PG_PROTOCOL_LATEST &&
   PG_PROTOCOL_MINOR proto > PG_PROTOCOL_MINOR PG_PROTOCOL_LATEST)

/-- ASCII bytes of a parameter name, for the `strcmp` calls. -/
def strBytes (s : String) : List Nat :=
  s.toList.map Char.toNat

/-- The port fields the name/value scan fills (database, user, options,
generic GUC list), each `none` until assigned. -/
structure GucCtx where
  database_name : Option (List Nat)
  user_name : Option (List Nat)
  cmdline_options : Option (List Nat)
  guc_options : List (List Nat)
  deriving DecidableEq, Repr

/-- The all-unset `GucCtx`. -/
def emptyGuc : GucCtx := ⟨none, none, none, []⟩

/-- One name/value assignment of the scan: "database", "user" and
"options" go to their port fields, anything else is appended (name then
value) to the generic GUC option list. -/
def assignPair (ctx : GucCtx) (name val : List Nat) : GucCtx :=
  if name = strBytes "database" then { ctx with database_name := some val }
  else if name = strBytes "user" then { ctx with user_name := some val }
  else if name = strBytes "options" then { ctx with cmdline_options := some val }
  else { ctx with guc_options := ctx.guc_options ++ [name, val] }

/-- The name/value scan loop of `ProcessStartupPacket` for protocol
versions ≥ 3, written with a structural fuel argument: starting at
`offset`, stop on an empty name (the packet terminator) or when the
value offset would reach the declared length (missing value), otherwise
record the pair and continue past the value.  Each looping iteration
advances `offset` by at least three while `offset < len`, so the
invariant `fuel ≥ len - offset` is preserved from the initial call and
the fuel-exhausted branch is only ever taken with `offset ≥ len`, where
it returns exactly what the loop exit returns; the fuel therefore does
not change the function computed by the C loop. -/
def parseLoopGo (body : List Nat) (len : Nat) :
    Nat → Nat → GucCtx → Nat × GucCtx
  | 0, offset, ctx => (offset, ctx)
  | fuel + 1, offset, ctx =>
      if offset < len then
        if cstringAt body offset = [] then (offset, ctx)
        else if offset + (cstringAt body offset).length + 1 ≥ len then
          (offset, ctx)
        else
          parseLoopGo body len fuel
            (offset + (cstringAt body offset).length + 1 +
              (cstringAt body
                (offset + (cstringAt body offset).length + 1)).length + 1)
            (assignPair ctx (cstringAt body offset)
              (cstringAt body (offset + (cstringAt body offset).length + 1)))
      else (offset, ctx)

/-- The scan loop, entered with sufficient fuel; returns the final offset
together with the collected fields. -/
def parseLoop (body : List Nat) (len offset : Nat) (ctx : GucCtx) :
    Nat × GucCtx :=
  parseLoopGo body len (len - offset) offset ctx

/-- Truncation of an oversize old-style field: the source writes a NUL at
index `limit` when the string is longer than the field. -/
def legacyTrunc (limit : Nat) (v : List Nat) : List Nat :=
  if v.length > limit then v.take limit else v

/-- Modelled from the spec for the field offsets only: the old-style
fixed-width `StartupPacket` layout (4-byte version, then database[64],
user[32], options[64]) is in the protocol header, which is not under
src/; the extraction and truncation logic follows the source. -/
def legacyCtx (body : List Nat) : GucCtx :=
  { database_name := some (legacyTrunc 64 (cstringAt body 4))
    user_name := some (legacyTrunc 32 (cstringAt body 68))
    cmdline_options := some (legacyTrunc 64 (cstringAt body 100))
    guc_options := [] }

/-- NAMEDATALEN truncation: a NUL is written at index NAMEDATALEN-1 when
the string is at least NAMEDATALEN long. -/
def nameTrunc (v : List Nat) : List Nat :=
  if v.length ≥ NAMEDATALEN then v.take (NAMEDATALEN - 1) else v

/-- The `Db_user_namespace` decoration: if the user name's only `'@'` is
its last character, drop it; otherwise append `'@'` and the database
name (ASCII `'@'` is 64). -/
def dbUserNamespaceAdjust (user db : List Nat) : List Nat :=
  if 64 ∈ user ∧ user.indexOf 64 + 1 = user.length then user.dropLast
  else user ++ 64 :: db

/-- Fatal rejections `ProcessStartupPacket` can raise (each an
`ereport(FATAL)` whose message reaches the client). -/
inductive FatalKind where
  | unsupportedProtocol
  | badPacketLayout
  | noUserName
  | cacStartup
  | cacShutdown
  | cacRecovery
  | cacTooMany
  deriving DecidableEq, Repr

/-- STATUS_ERROR returns of `ProcessStartupPacket` (communication errors
reported only to the log, nothing sent to the client). -/
inductive ErrKind where
  | incompleteStartupPacket
  | invalidLength
  | sslSendFailed
  | sslHandshakeFailed
  deriving DecidableEq, Repr

/-- The connection parameters a fully accepted startup packet leaves in
the port. -/
structure ConnCtx where
  proto : Nat
  database_name : List Nat
  user_name : List Nat
  cmdline_options : Option (List Nat)
  guc_options : List (List Nat)
  deriving DecidableEq, Repr

/-- The discriminator in the first four bytes of a startup-packet body,
as `ntohl` reads it. -/
def protoOf (body : List Nat) : Nat :=
  ntohl4 (byteAt body 0) (byteAt body 1) (byteAt body 2) (byteAt body 3)

/-- Final outcome of `ProcessStartupPacket`. -/
inductive StartupResult where
  | statusError (e : ErrKind)
  | cancelDispatch (backendPID cancelAuthCode : Nat)
  | fatal (k : FatalKind)
  | accepted (ctx : ConnCtx)
  deriving DecidableEq, Repr

/-- Per-connection environment of `ProcessStartupPacket`: the SSL build
state, whether the local endpoint is a Unix socket, whether the one-byte
negotiation send and the SSL handshake succeed, the
`Db_user_namespace` flag, and the admission verdict stored in the port
before the packet was read. -/
structure ChildCfg where
  EnableSSL : Bool
  laddrIsUnix : Bool
  sendOk : Bool
  sslHandshakeOk : Bool
  Db_user_namespace : Bool
  cac : CAC_state
  deriving DecidableEq, Repr

/-- The one SSL-negotiation response byte: 'S' only when SSL is enabled
and the local endpoint is not a Unix socket, else 'N'. -/
def sslResponseByte (cfg : ChildCfg) : Char :=
  if cfg.EnableSSL ∧ cfg.laddrIsUnix = false then 'S' else 'N'

/-- What `ProcessStartupPacket` did: the bytes handed to `send` as SSL
negotiation responses, the value stored into the `FrontendProtocol`
global (only on the protocol-version path), and the final result. -/
structure PSPOut where
  sslReplies : List Char
  frontendProtocol : Option Nat
  result : StartupResult
  deriving DecidableEq, Repr

/-- Tail of `ProcessStartupPacket` after the name/value scan (or the
old-style extraction): a missing or empty user name is fatal; the
database name defaults to the user name; `Db_user_namespace` decoration;
NAMEDATALEN truncation of both names; finally the stored admission
verdict is turned into a fatal rejection, or the packet is accepted. -/
def finishStartup (cfg : ChildCfg) (proto : Nat) (ctx : GucCtx) :
    StartupResult :=
  match ctx.user_name with
  | none => .fatal .noUserName
  | some u =>
      if u = [] then .fatal .noUserName
      else
        let db := match ctx.database_name with
          | none => u
          | some d => if d = [] then u else d
        let u' := if cfg.Db_user_namespace then dbUserNamespaceAdjust u db else u
        match cfg.cac with
        | .CAC_STARTUP => .fatal .cacStartup
        | .CAC_SHUTDOWN => .fatal .cacShutdown
        | .CAC_RECOVERY => .fatal .cacRecovery
        | .CAC_TOOMANY => .fatal .cacTooMany
        | .CAC_OK =>
            .accepted ⟨proto, nameTrunc db, nameTrunc u',
              ctx.cmdline_options, ctx.guc_options⟩

/-- `ProcessStartupPacket`.  `packets` is the sequence of startup-message
bodies the client sends on this connection (each the declared-length
bytes after the length word); an empty sequence is an EOF (incomplete
packet).  Branches in source order: length bounds; cancel request
(dispatched, nothing sent back); secure negotiation when not already
done (one response byte handed to `send`; on 'S' the SSL handshake, then
the next message is processed with `SSLdone` set); otherwise the
discriminator is a protocol version: it is stored into
`FrontendProtocol`, the version test may reject it as unsupported, and
the body is parsed by the ≥3 scan or the old-style extraction. -/
def ProcessStartupPacket (cfg : ChildCfg) :
    List (List Nat) → Bool → PSPOut
  | [], _ => ⟨[], none, .statusError .incompleteStartupPacket⟩
  | body :: rest, SSLdone =>
      if body.length < 4 ∨ body.length > MAX_STARTUP_PACKET_LENGTH then
        ⟨[], none, .statusError .invalidLength⟩
      else
        if protoOf body = CANCEL_REQUEST_CODE then
          ⟨[], none,
            .cancelDispatch
              (ntohl4 (byteAt body 4) (byteAt body 5) (byteAt body 6)
                (byteAt body 7))
              (ntohl4 (byteAt body 8) (byteAt body 9) (byteAt body 10)
                (byteAt body 11))⟩
        else if protoOf body = NEGOTIATE_SSL_CODE ∧ SSLdone = false then
          if cfg.sendOk = false then
            ⟨[sslResponseByte cfg], none, .statusError .sslSendFailed⟩
          else if sslResponseByte cfg = 'S' ∧ cfg.sslHandshakeOk = false then
            ⟨[sslResponseByte cfg], none, .statusError .sslHandshakeFailed⟩
          else
            ⟨sslResponseByte cfg ::
                (ProcessStartupPacket cfg rest true).sslReplies,
              (ProcessStartupPacket cfg rest true).frontendProtocol,
              (ProcessStartupPacket cfg rest true).result⟩
        else
          ⟨[], some (protoOf body),
            if unsupportedVersion (protoOf body) then .fatal .unsupportedProtocol
            else if PG_PROTOCOL_MAJOR (protoOf body) ≥ 3 then
              if (parseLoop body body.length 4 emptyGuc).1 ≠ body.length - 1 then
                .fatal .badPacketLayout
              else finishStartup cfg (protoOf body)
                (parseLoop body body.length 4 emptyGuc).2
            else finishStartup cfg (protoOf body) (legacyCtx body)⟩

/-- What one accepted raw connection leads to: `ServerLoop` calls
`ConnCreate` then `BackendStartup`, which forks before any packet byte
is read; only the spawned child (`BackendRun`) calls
`ProcessStartupPacket` with `SSLdone = false` on the client's messages,
with the admission verdict that `BackendStartup` stored in the port. -/
structure ConnectionOutcome where
  BackendList : List Backend
  spawnedPid : Option Nat
  childOutcome : Option PSPOut
  deriving DecidableEq, Repr

/-- The dispatch of one accepted connection, composing `BackendStartup`
in the postmaster with `ProcessStartupPacket` in the spawned worker. -/
def connectionDispatch (s : PMState) (MyCancelKey : Nat) (mallocOk : Bool)
    (fork : ForkOutcome) (noblockOk : Bool) (cfg : ChildCfg)
    (packets : List (List Nat)) : ConnectionOutcome :=
  let out := BackendStartup s MyCancelKey mallocOk fork noblockOk
  { BackendList := out.BackendList
    spawnedPid := out.spawnedPid
    childOutcome :=
      match out.spawnedPid with
      | some _ =>
          some (ProcessStartupPacket
            { cfg with cac := (out.portCac).getD cfg.cac } packets false)
      | none => none }

/-! Helper lemmas. -/

lemma cancelScan_eq (bl : List Backend) (p k : Nat)
    (hnd : (bl.map Backend.pid).Nodup) :
    cancelScan bl p k =
      if ∃ bp ∈ bl, bp.pid = p ∧ bp.cancel_key = k then [(p, Sig.SIGINT)]
      else [] := by
  induction bl with
  | nil => simp [cancelScan]
  | cons bp rest ih =>
      rw [List.map_cons, List.nodup_cons] at hnd
      by_cases hp : bp.pid = p
      · by_cases hk : bp.cancel_key = k
        · have hex : ∃ b ∈ bp :: rest, b.pid = p ∧ b.cancel_key = k :=
            ⟨bp, List.mem_cons_self bp rest, hp, hk⟩
          simp [cancelScan, hp, hk, hex]
        · have hex : ¬ ∃ b ∈ bp :: rest, b.pid = p ∧ b.cancel_key = k := by
            rintro ⟨b, hb, hbp, hbk⟩
            rcases List.mem_cons.mp hb with h | h
            · exact hk (h ▸ hbk)
            · exact hnd.1 (hp ▸ hbp ▸ List.mem_map_of_mem Backend.pid h)
          simp only [cancelScan, if_pos hp, if_neg hk, if_neg hex]
      · have hiff : (∃ b ∈ bp :: rest, b.pid = p ∧ b.cancel_key = k) ↔
            (∃ b ∈ rest, b.pid = p ∧ b.cancel_key = k) := by
          constructor
          · rintro ⟨b, hb, hbp, hbk⟩
            rcases List.mem_cons.mp hb with h | h
            · exact absurd (h ▸ hbp) hp
            · exact ⟨b, h, hbp, hbk⟩
          · rintro ⟨b, hb, hbp, hbk⟩
            exact ⟨b, List.mem_cons_of_mem bp hb, hbp, hbk⟩
        rw [cancelScan, if_neg hp, ih hnd.2]
        by_cases hex : ∃ b ∈ rest, b.pid = p ∧ b.cancel_key = k
        · rw [if_pos hex, if_pos (hiff.mpr hex)]
        · rw [if_neg hex, if_neg (fun h => hex (hiff.mp h))]

lemma pmdieShutdownTail_Shutdown (s : PMState) (bg : Nat) :
    (pmdieShutdownTail s bg).s.Shutdown = s.Shutdown := by
  unfold pmdieShutdownTail
  split
  · rfl
  · simp only []
    split <;> rfl

lemma pmdie_Shutdown_le (s : PMState) (sig : Sig) (bg : Nat) :
    s.Shutdown ≤ (pmdie s sig bg).s.Shutdown := by
  cases sig <;> simp only [pmdie]
  case SIGTERM =>
    split
    · exact Nat.le_refl _
    · next h =>
        split
        · simp only []
          omega
        · rw [pmdieShutdownTail_Shutdown]
          simp only []
          omega
  case SIGINT =>
    split
    · exact Nat.le_refl _
    · next h =>
        split
        · split <;> (simp only []; omega)
        · rw [pmdieShutdownTail_Shutdown]
          simp only []
          omega
  all_goals exact Nat.le_refl _

lemma HandleChildCrash_Shutdown (s : PMState) (pid : Nat) :
    (HandleChildCrash s pid).1.Shutdown = s.Shutdown := by
  simp only [HandleChildCrash]
  split_ifs <;> rfl

lemma CleanupBackend_Shutdown (s : PMState) (pid st : Nat) :
    (CleanupBackend s pid st).1.Shutdown = s.Shutdown := by
  simp only [CleanupBackend]
  split_ifs
  · exact HandleChildCrash_Shutdown s pid
  · rfl

lemma reaper1_Shutdown (f : Forks) (s : PMState) (pid st : Nat) :
    (reaper1 f s pid st).s.Shutdown = s.Shutdown := by
  simp only [reaper1]
  split_ifs <;>
    first
      | rfl
      | exact HandleChildCrash_Shutdown { s with BgWriterPID := 0 } pid
      | exact CleanupBackend_Shutdown s pid st

lemma reaperFinish_Shutdown (f : Forks) (s : PMState) :
    (reaperFinish f s).s.Shutdown = s.Shutdown := by
  simp only [reaperFinish]
  split_ifs <;> rfl

lemma reaperLoop_Shutdown (f : Forks) (events : List (Nat × Nat)) :
    ∀ (s : PMState) (acc : List (Nat × Sig)),
      (reaperLoop f s events acc).s.Shutdown = s.Shutdown := by
  induction events with
  | nil =>
      intro s acc
      simp only [reaperLoop]
      exact reaperFinish_Shutdown f s
  | cons e rest ih =>
      intro s acc
      simp only [reaperLoop]
      rcases h : (reaper1 f s e.1 e.2).exitCode with _ | c
      · simp only [h]
        rw [ih (reaper1 f s e.1 e.2).s (acc ++ (reaper1 f s e.1 e.2).kills)]
        exact reaper1_Shutdown f s e.1 e.2
      · simp only [h]
        exact reaper1_Shutdown f s e.1 e.2

lemma protoOf_word32be (v : Nat) (tail : List Nat) (hv : v < 4294967296) :
    protoOf (word32be v ++ tail) = v := by
  simp only [protoOf, word32be, byteAt, ntohl4, List.cons_append,
    List.getD_cons_zero, List.getD_cons_succ]
  omega

lemma length_word32be_append (v : Nat) (tail : List Nat) :
    (word32be v ++ tail).length = 4 + tail.length := by
  simp [word32be]
  omega

lemma psp_version_path (cfg : ChildCfg) (SSLdone : Bool) (body : List Nat)
    (rest : List (List Nat)) (h4 : 4 ≤ body.length)
    (hM : body.length ≤ MAX_STARTUP_PACKET_LENGTH)
    (hc : protoOf body ≠ CANCEL_REQUEST_CODE)
    (hn : ¬ (protoOf body = NEGOTIATE_SSL_CODE ∧ SSLdone = false)) :
    ProcessStartupPacket cfg (body :: rest) SSLdone =
      ⟨[], some (protoOf body),
        if unsupportedVersion (protoOf body) then .fatal .unsupportedProtocol
        else if PG_PROTOCOL_MAJOR (protoOf body) ≥ 3 then
          if (parseLoop body body.length 4 emptyGuc).1 ≠ body.length - 1 then
            .fatal .badPacketLayout
          else finishStartup cfg (protoOf body)
            (parseLoop body body.length 4 emptyGuc).2
        else finishStartup cfg (protoOf body) (legacyCtx body)⟩ := by
  have hlen : ¬ (body.length < 4 ∨ body.length > MAX_STARTUP_PACKET_LENGTH) := by
    omega
  simp only [ProcessStartupPacket]
  rw [if_neg hlen, if_neg hc, if_neg hn]

lemma psp_done_sslReplies (cfg : ChildCfg) (pkts : List (List Nat)) :
    (ProcessStartupPacket cfg pkts true).sslReplies = [] := by
  cases pkts with
  | nil => rfl
  | cons body rest =>
      by_cases h1 : body.length < 4 ∨ body.length > MAX_STARTUP_PACKET_LENGTH
      · simp [ProcessStartupPacket, h1]
      · by_cases h2 : protoOf body = CANCEL_REQUEST_CODE
        · simp [ProcessStartupPacket, h1, h2]
        · have h3 : ¬ (protoOf body = NEGOTIATE_SSL_CODE ∧ (true : Bool) = false) := by
            simp
          simp [ProcessStartupPacket, h1, h2, h3]

lemma psp_ssldone_irrelevant (cfg : ChildCfg) (body : List Nat)
    (rest : List (List Nat)) (h : protoOf body ≠ NEGOTIATE_SSL_CODE) :
    ProcessStartupPacket cfg (body :: rest) true =
      ProcessStartupPacket cfg (body :: rest) false := by
  have h1 : ¬ (protoOf body = NEGOTIATE_SSL_CODE ∧ (true : Bool) = false) := by
    rintro ⟨hh, _⟩
    exact h hh
  have h2 : ¬ (protoOf body = NEGOTIATE_SSL_CODE ∧ True) := by
    rintro ⟨hh, _⟩
    exact h hh
  simp only [ProcessStartupPacket]
  rw [if_neg h1, if_neg h2]

lemma psp_negotiate_step (cfg : ChildCfg) (tail : List Nat)
    (rest : List (List Nat))
    (hlen : tail.length ≤ MAX_STARTUP_PACKET_LENGTH - 4) :
    ProcessStartupPacket cfg ((word32be NEGOTIATE_SSL_CODE ++ tail) :: rest)
        false =
      if cfg.sendOk = false then
        ⟨[sslResponseByte cfg], none, .statusError .sslSendFailed⟩
      else if sslResponseByte cfg = 'S' ∧ cfg.sslHandshakeOk = false then
        ⟨[sslResponseByte cfg], none, .statusError .sslHandshakeFailed⟩
      else
        ⟨sslResponseByte cfg :: (ProcessStartupPacket cfg rest true).sslReplies,
          (ProcessStartupPacket cfg rest true).frontendProtocol,
          (ProcessStartupPacket cfg rest true).result⟩ := by
  have hp : protoOf (word32be NEGOTIATE_SSL_CODE ++ tail) = NEGOTIATE_SSL_CODE :=
    protoOf_word32be _ tail (by decide)
  have hll := length_word32be_append NEGOTIATE_SSL_CODE tail
  have hlen' : ¬ ((word32be NEGOTIATE_SSL_CODE ++ tail).length < 4 ∨
      (word32be NEGOTIATE_SSL_CODE ++ tail).length >
        MAX_STARTUP_PACKET_LENGTH) := by
    rw [hll]
    unfold MAX_STARTUP_PACKET_LENGTH at hlen ⊢
    omega
  have hc : ¬ (protoOf (word32be NEGOTIATE_SSL_CODE ++ tail) =
      CANCEL_REQUEST_CODE) := by
    rw [hp]
    decide
  have hn : protoOf (word32be NEGOTIATE_SSL_CODE ++ tail) =
      NEGOTIATE_SSL_CODE ∧ True := ⟨hp, trivial⟩
  simp only [ProcessStartupPacket]
  rw [if_neg hlen', if_neg hc, if_pos hn]

lemma unsupported_iff (proto : Nat) :
    unsupportedVersion proto = true ↔
      (PG_PROTOCOL_MAJOR proto < PG_PROTOCOL_MAJOR PG_PROTOCOL_EARLIEST ∨
       PG_PROTOCOL_MAJOR proto > PG_PROTOCOL_MAJOR PG_PROTOCOL_LATEST ∨
       (PG_PROTOCOL_MAJOR proto = PG_PROTOCOL_MAJOR PG_PROTOCOL_LATEST ∧
        PG_PROTOCOL_MINOR proto > PG_PROTOCOL_MINOR PG_PROTOCOL_LATEST)) := by
  simp [unsupportedVersion, Bool.or_eq_true, Bool.and_eq_true,
    decide_eq_true_eq, beq_iff_eq, or_assoc]

lemma finishStartup_ne_unsupported (cfg : ChildCfg) (proto : Nat)
    (ctx : GucCtx) :
    finishStartup cfg proto ctx ≠ .fatal .unsupportedProtocol := by
  unfold finishStartup
  rcases h : ctx.user_name with _ | u <;> simp only [h]
  · simp
  · split_ifs <;> (rcases hc : cfg.cac <;> simp [hc])

/-! Claim theorems. -/

/-- C2: for every cancel request, SIGINT is sent to a worker iff the
request's worker-id equals a registry entry's pid and the cancel-secret
equals that entry's cancel key (pids in the registry being unique); on a
key mismatch or a missing entry nothing is signalled, and in all cases
nothing is sent back to the requester. -/
theorem cancel_request_exact_match (bl : List Backend)
    (backendPID cancelAuthCode : Nat) (hnd : (bl.map Backend.pid).Nodup) :
    ((processCancelRequest bl backendPID cancelAuthCode).kills =
        [(backendPID, Sig.SIGINT)] ↔
      ∃ bp ∈ bl, bp.pid = backendPID ∧ bp.cancel_key = cancelAuthCode) ∧
    ((¬ ∃ bp ∈ bl, bp.pid = backendPID ∧ bp.cancel_key = cancelAuthCode) →
      (processCancelRequest bl backendPID cancelAuthCode).kills = []) ∧
    (processCancelRequest bl backendPID cancelAuthCode).sentToClient = [] := by
  unfold processCancelRequest
  rw [cancelScan_eq bl backendPID cancelAuthCode hnd]
  refine ⟨?_, ?_, rfl⟩
  · constructor
    · intro h
      by_contra hex
      rw [if_neg hex] at h
      exact List.cons_ne_nil _ _ h.symm
    · intro hex
      rw [if_pos hex]
  · intro hex
    rw [if_neg hex]

/-- C2 witness: with a single registered worker of pid 42 and cancel key
0xDEADBEEF, the matching request is signalled with SIGINT and the
mismatching request is not. -/
theorem cancel_request_exact_match_witness :
    (processCancelRequest [⟨42, 3735928559⟩] 42 3735928559).kills =
        [(42, Sig.SIGINT)] ∧
      (processCancelRequest [⟨42, 3735928559⟩] 42 0).kills = [] :=
  ⟨(cancel_request_exact_match [⟨42, 3735928559⟩] 42 3735928559
      (by decide)).1.mpr ⟨⟨42, 3735928559⟩, by decide, rfl, rfl⟩,
    (cancel_request_exact_match [⟨42, 3735928559⟩] 42 0
      (by decide)).2.1 (by decide)⟩

/-- C3: the admission verdict is a pure function of supervisor state and
worker count; when exactly one reject condition holds it returns that
condition's verdict, with none it returns Ok, and with no other
condition a worker count equal to twice the maximum is rejected as
saturated while any smaller count is admitted. -/
theorem admission_verdict_cases (s : PMState) :
    (condStartup s ∧ ¬ condShutdown s ∧ ¬ condRecovery s ∧ ¬ condSaturated s →
      canAcceptConnections s = .CAC_STARTUP) ∧
    (condShutdown s ∧ ¬ condStartup s ∧ ¬ condRecovery s ∧ ¬ condSaturated s →
      canAcceptConnections s = .CAC_SHUTDOWN) ∧
    (condRecovery s ∧ ¬ condStartup s ∧ ¬ condShutdown s ∧ ¬ condSaturated s →
      canAcceptConnections s = .CAC_RECOVERY) ∧
    (condSaturated s ∧ ¬ condStartup s ∧ ¬ condShutdown s ∧ ¬ condRecovery s →
      canAcceptConnections s = .CAC_TOOMANY) ∧
    (¬ condStartup s ∧ ¬ condShutdown s ∧ ¬ condRecovery s ∧ ¬ condSaturated s →
      canAcceptConnections s = .CAC_OK) ∧
    (¬ condStartup s ∧ ¬ condShutdown s ∧ ¬ condRecovery s →
      (CountChildren s = 2 * s.MaxBackends →
        canAcceptConnections s = .CAC_TOOMANY) ∧
      (CountChildren s < 2 * s.MaxBackends →
        canAcceptConnections s = .CAC_OK)) := by
  unfold canAcceptConnections condStartup condShutdown condRecovery condSaturated
  split_ifs <;> refine ⟨?_, ?_, ?_, ?_, ?_, ?_⟩ <;> (simp_all; try omega)

/-- C3 witness: a state whose only reject condition is a worker count of
exactly twice the maximum is rejected as saturated, and the same state
with one fewer worker is admitted. -/
theorem admission_verdict_cases_witness :
    canAcceptConnections
        ⟨0, 0, 9, 0, 0, 0, false, [⟨1, 0⟩, ⟨2, 0⟩], 1, false, false⟩ =
      .CAC_TOOMANY ∧
    canAcceptConnections ⟨0, 0, 9, 0, 0, 0, false, [⟨1, 0⟩], 1, false, false⟩ =
      .CAC_OK :=
  ⟨((admission_verdict_cases
        ⟨0, 0, 9, 0, 0, 0, false, [⟨1, 0⟩, ⟨2, 0⟩], 1, false, false⟩).2.2.2.2.2
      ⟨by decide, by decide, by decide⟩).1 (by decide),
    ((admission_verdict_cases
        ⟨0, 0, 9, 0, 0, 0, false, [⟨1, 0⟩], 1, false, false⟩).2.2.2.2.2
      ⟨by decide, by decide, by decide⟩).2 (by decide)⟩

/-- C4: the shutdown level never decreases: each `pmdie` transition
leaves it at least as high, a smart-stop received at level SmartShutdown
or higher and a fast-stop received at level FastShutdown leave it
unchanged, over any run of signals the final level is at least the
initial one, and the reaper (the only other writer of supervisor state)
never changes the level at all. -/
theorem shutdown_level_monotone (s : PMState) (sig : Sig) (bg : Nat) :
    s.Shutdown ≤ (pmdie s sig bg).s.Shutdown ∧
    (sig = .SIGTERM → SmartShutdown ≤ s.Shutdown →
      (pmdie s sig bg).s.Shutdown = s.Shutdown) ∧
    (sig = .SIGINT → FastShutdown ≤ s.Shutdown →
      (pmdie s sig bg).s.Shutdown = s.Shutdown) ∧
    (∀ inputs : List (Sig × Nat),
      s.Shutdown ≤
        (inputs.foldl (fun t p => (pmdie t p.1 p.2).s) s).Shutdown) ∧
    (∀ (f : Forks) (events : List (Nat × Nat)),
      (reaper f s events).s.Shutdown = s.Shutdown) := by
  refine ⟨pmdie_Shutdown_le s sig bg, ?_, ?_, ?_,
    fun f events => reaperLoop_Shutdown f events s []⟩
  · rintro rfl h
    simp only [pmdie, if_pos h]
  · rintro rfl h
    simp only [pmdie, if_pos h]
  · intro inputs
    induction inputs generalizing s with
    | nil => exact Nat.le_refl _
    | cons p rest ih =>
        exact Nat.le_trans (pmdie_Shutdown_le s p.1 p.2)
          (by simpa using ih (pmdie s p.1 p.2).s)

/-- C4 witness: from a state already at SmartShutdown, a further
smart-stop leaves the level unchanged. -/
theorem shutdown_level_monotone_witness :
    (pmdie ⟨1, 0, 9, 0, 0, 0, false, [], 10, false, false⟩ .SIGTERM 5).s.Shutdown
      = (⟨1, 0, 9, 0, 0, 0, false, [], 10, false, false⟩ : PMState).Shutdown :=
  (shutdown_level_monotone ⟨1, 0, 9, 0, 0, 0, false, [], 10, false, false⟩
    .SIGTERM 5).2.1 rfl (by decide)

/-- C8: worker spawning is atomic with respect to the registry on
failure: an allocation failure returns an error without forking and with
the registry unchanged; a fork failure frees the row, sends at most one
best-effort error packet (exactly one when the socket could be set
non-blocking) and leaves the registry unchanged; only a successful fork
links the row, bound to the worker pid and cancel key, at the head of
the registry. -/
theorem spawn_registry_atomic (s : PMState) (key : Nat) (mallocOk : Bool)
    (fork : ForkOutcome) (noblockOk : Bool) :
    (mallocOk = false →
      (BackendStartup s key mallocOk fork noblockOk).status = .STATUS_ERROR ∧
      (BackendStartup s key mallocOk fork noblockOk).BackendList =
        s.BackendList ∧
      (BackendStartup s key mallocOk fork noblockOk).spawnedPid = none ∧
      (BackendStartup s key mallocOk fork noblockOk).clientReply = []) ∧
    (mallocOk = true → fork = .failure →
      (BackendStartup s key mallocOk fork noblockOk).status = .STATUS_ERROR ∧
      (BackendStartup s key mallocOk fork noblockOk).BackendList =
        s.BackendList ∧
      (BackendStartup s key mallocOk fork noblockOk).spawnedPid = none ∧
      (BackendStartup s key mallocOk fork noblockOk).clientReply.length ≤ 1 ∧
      (noblockOk = true →
        (BackendStartup s key mallocOk fork noblockOk).clientReply =
          [forkFailureMsg])) ∧
    (∀ pid, mallocOk = true → fork = .success pid →
      (BackendStartup s key mallocOk fork noblockOk).status = .STATUS_OK ∧
      (BackendStartup s key mallocOk fork noblockOk).BackendList =
        { pid := pid, cancel_key := key } :: s.BackendList ∧
      (BackendStartup s key mallocOk fork noblockOk).spawnedPid = some pid) := by
  refine ⟨?_, ?_, ?_⟩
  · rintro rfl
    simp [BackendStartup]
  · rintro rfl rfl
    cases noblockOk <;>
      simp [BackendStartup, report_fork_failure_to_client]
  · rintro pid rfl rfl
    simp [BackendStartup]

/-- C8 witness: a fork failure with a non-blocking socket leaves the
registry unchanged and sends exactly one error packet, while a
successful fork links the new entry. -/
theorem spawn_registry_atomic_witness :
    (BackendStartup ⟨0, 0, 9, 0, 0, 0, false, [⟨5, 6⟩], 10, false, false⟩ 77
        true .failure true).BackendList = [⟨5, 6⟩] ∧
    (BackendStartup ⟨0, 0, 9, 0, 0, 0, false, [⟨5, 6⟩], 10, false, false⟩ 77
        true .failure true).clientReply = [forkFailureMsg] ∧
    (BackendStartup ⟨0, 0, 9, 0, 0, 0, false, [⟨5, 6⟩], 10, false, false⟩ 77
        true (.success 101) true).BackendList = [⟨101, 77⟩, ⟨5, 6⟩] :=
  ⟨((spawn_registry_atomic ⟨0, 0, 9, 0, 0, 0, false, [⟨5, 6⟩], 10, false, false⟩
      77 true .failure true).2.1 rfl rfl).2.1,
    ((spawn_registry_atomic ⟨0, 0, 9, 0, 0, 0, false, [⟨5, 6⟩], 10, false,
        false⟩ 77 true .failure true).2.1 rfl rfl).2.2.2.2 rfl,
    ((spawn_registry_atomic ⟨0, 0, 9, 0, 0, 0, false, [⟨5, 6⟩], 10, false,
        false⟩ 77 true (.success 101) true).2.2 101 rfl rfl).2.1⟩

/-- C1 counterexample: in a crash-recovery state (`FatalError` set,
startup child pid 7, everything else drained), a nonzero exit of the
startup child makes the reaper call `ExitPostmaster 1` — the supervisor
aborts and no new startup child is launched, contrary to the claimed
indefinite retry. -/
theorem startup_failure_crashrecovery_aborts :
    (reaper ⟨8, 9, 10, 11, 12⟩ ⟨0, 7, 0, 0, 0, 0, true, [], 10, false, false⟩
        [(7, 1)]).exitCode = some 1 ∧
    (reaper ⟨8, 9, 10, 11, 12⟩ ⟨0, 7, 0, 0, 0, 0, true, [], 10, false, false⟩
        [(7, 1)]).s.StartupPID = 0 := by
  decide

/-- C1 amended: a nonzero startup-child exit aborts the whole supervisor
in every life-phase — during CrashRecovery exactly as during Booting —
and no new startup child is launched from that path. -/
theorem startup_failure_always_aborts (f : Forks) (s : PMState) (pid st : Nat)
    (h1 : s.StartupPID ≠ 0) (h2 : pid = s.StartupPID) (h3 : st ≠ 0) :
    (reaper f s [(pid, st)]).exitCode = some 1 ∧
    (reaper f s [(pid, st)]).s.StartupPID = 0 := by
  subst h2
  simp [reaper, reaperLoop, reaper1, h1, h3]

/-- C1 witness: a concrete nonzero startup-child exit during Booting
(`FatalError` clear) aborts with exit code 1. -/
theorem startup_failure_always_aborts_witness :
    (reaper ⟨1, 2, 3, 4, 5⟩ ⟨0, 33, 0, 0, 0, 0, false, [], 4, false, false⟩
        [(33, 2)]).exitCode = some 1 ∧
    (reaper ⟨1, 2, 3, 4, 5⟩ ⟨0, 33, 0, 0, 0, 0, false, [], 4, false, false⟩
        [(33, 2)]).s.StartupPID = 0 :=
  startup_failure_always_aborts ⟨1, 2, 3, 4, 5⟩
    ⟨0, 33, 0, 0, 0, 0, false, [], 4, false, false⟩ 33 2 (by decide) rfl
    (by decide)

/-- C5 counterexample: on a connection whose only startup packet carries
the unsupported version 4.0, the reaped supervisor still forks a worker
(pid 101) and links it into the registry before any packet byte is read;
the unsupported-protocol rejection is then raised inside that worker.
So the claimed "no worker spawned, no registry mutation" is false. -/
theorem unsupported_protocol_still_spawns :
    (connectionDispatch ⟨0, 0, 9, 0, 0, 0, false, [], 10, false, false⟩ 77 true
        (.success 101) true ⟨false, false, true, true, false, .CAC_OK⟩
        [[0, 4, 0, 0]]).childOutcome =
      some ⟨[], some 262144, .fatal .unsupportedProtocol⟩ ∧
    (connectionDispatch ⟨0, 0, 9, 0, 0, 0, false, [], 10, false, false⟩ 77 true
        (.success 101) true ⟨false, false, true, true, false, .CAC_OK⟩
        [[0, 4, 0, 0]]).spawnedPid = some 101 ∧
    (connectionDispatch ⟨0, 0, 9, 0, 0, 0, false, [], 10, false, false⟩ 77 true
        (.success 101) true ⟨false, false, true, true, false, .CAC_OK⟩
        [[0, 4, 0, 0]]).BackendList = [⟨101, 77⟩] ∧
    [(⟨101, 77⟩ : Backend)] ≠ ([] : List Backend) := by
  decide

/-- C5 amended: a startup packet with a too-new major version does
receive the unsupported-protocol rejection, but the rejection is issued
by an already-spawned worker: the supervisor forks the worker and links
it into the registry before the startup packet is read, so the registry
gains an entry for that connection; the rejected worker then exits. -/
theorem unsupported_protocol_rejected_in_worker (s : PMState) (key pid : Nat)
    (noblockOk : Bool) (cfg : ChildCfg) (proto : Nat) (tail : List Nat)
    (rest : List (List Nat)) (h32 : proto < 4294967296)
    (hc : proto ≠ CANCEL_REQUEST_CODE) (hnn : proto ≠ NEGOTIATE_SSL_CODE)
    (hlen : tail.length ≤ MAX_STARTUP_PACKET_LENGTH - 4)
    (hmaj : PG_PROTOCOL_MAJOR proto > PG_PROTOCOL_MAJOR PG_PROTOCOL_LATEST) :
    (connectionDispatch s key true (.success pid) noblockOk cfg
        ((word32be proto ++ tail) :: rest)).spawnedPid = some pid ∧
    (connectionDispatch s key true (.success pid) noblockOk cfg
        ((word32be proto ++ tail) :: rest)).BackendList =
      { pid := pid, cancel_key := key } :: s.BackendList ∧
    (connectionDispatch s key true (.success pid) noblockOk cfg
        ((word32be proto ++ tail) :: rest)).childOutcome =
      some ⟨[], some proto, .fatal .unsupportedProtocol⟩ := by
  have hp := protoOf_word32be proto tail h32
  have hl := length_word32be_append proto tail
  have h4 : 4 ≤ (word32be proto ++ tail).length := by omega
  have hM : (word32be proto ++ tail).length ≤ MAX_STARTUP_PACKET_LENGTH := by
    unfold MAX_STARTUP_PACKET_LENGTH at hlen ⊢
    omega
  have hc' : protoOf (word32be proto ++ tail) ≠ CANCEL_REQUEST_CODE := by
    rw [hp]
    exact hc
  have hn' : ¬ (protoOf (word32be proto ++ tail) = NEGOTIATE_SSL_CODE ∧
      (false : Bool) = false) := by
    rintro ⟨hh, _⟩
    rw [hp] at hh
    exact hnn hh
  have hu : unsupportedVersion proto = true :=
    (unsupported_iff proto).mpr (Or.inr (Or.inl hmaj))
  refine ⟨?_, ?_, ?_⟩
  · simp [connectionDispatch, BackendStartup]
  · simp [connectionDispatch, BackendStartup]
  · simp only [connectionDispatch, BackendStartup]
    rw [psp_version_path _ false (word32be proto ++ tail) rest h4 hM hc' hn']
    simp [hp, hu]

/-- C5 witness: a concrete 5.1-version connection spawns worker 202,
links it ahead of the existing entry, and the worker raises the
unsupported-protocol rejection. -/
theorem unsupported_protocol_rejected_in_worker_witness :
    (connectionDispatch ⟨0, 0, 9, 0, 0, 0, false, [⟨5, 6⟩], 10, false, false⟩
        88 true (.success 202) false ⟨false, true, true, true, false, .CAC_OK⟩
        [word32be (PG_PROTOCOL 5 1) ++ []]).spawnedPid = some 202 ∧
    (connectionDispatch ⟨0, 0, 9, 0, 0, 0, false, [⟨5, 6⟩], 10, false, false⟩
        88 true (.success 202) false ⟨false, true, true, true, false, .CAC_OK⟩
        [word32be (PG_PROTOCOL 5 1) ++ []]).BackendList =
      ({ pid := 202, cancel_key := 88 } :: [⟨5, 6⟩]) ∧
    (connectionDispatch ⟨0, 0, 9, 0, 0, 0, false, [⟨5, 6⟩], 10, false, false⟩
        88 true (.success 202) false ⟨false, true, true, true, false, .CAC_OK⟩
        [word32be (PG_PROTOCOL 5 1) ++ []]).childOutcome =
      some ⟨[], some (PG_PROTOCOL 5 1), .fatal .unsupportedProtocol⟩ :=
  unsupported_protocol_rejected_in_worker
    ⟨0, 0, 9, 0, 0, 0, false, [⟨5, 6⟩], 10, false, false⟩ 88 202 false
    ⟨false, true, true, true, false, .CAC_OK⟩ (PG_PROTOCOL 5 1) [] []
    (by decide) (by decide) (by decide) (by decide) (by decide)

/-- C6: a startup packet whose discriminator is a protocol version is
rejected as unsupported exactly when the major version is below the
earliest supported, above the latest supported, or equal to the latest
with a minor above the latest supported minor; every version reaching
this check is recorded as the connection's protocol version. -/
theorem version_check_boundaries (cfg : ChildCfg) (SSLdone : Bool)
    (proto : Nat) (tail : List Nat) (h32 : proto < 4294967296)
    (hc : proto ≠ CANCEL_REQUEST_CODE) (hnn : proto ≠ NEGOTIATE_SSL_CODE)
    (hlen : tail.length ≤ MAX_STARTUP_PACKET_LENGTH - 4) :
    ((ProcessStartupPacket cfg [word32be proto ++ tail] SSLdone).result =
        .fatal .unsupportedProtocol ↔
      (PG_PROTOCOL_MAJOR proto < PG_PROTOCOL_MAJOR PG_PROTOCOL_EARLIEST ∨
        PG_PROTOCOL_MAJOR proto > PG_PROTOCOL_MAJOR PG_PROTOCOL_LATEST ∨
        (PG_PROTOCOL_MAJOR proto = PG_PROTOCOL_MAJOR PG_PROTOCOL_LATEST ∧
          PG_PROTOCOL_MINOR proto > PG_PROTOCOL_MINOR PG_PROTOCOL_LATEST))) ∧
    (ProcessStartupPacket cfg [word32be proto ++ tail]
        SSLdone).frontendProtocol = some proto := by
  have hp := protoOf_word32be proto tail h32
  have hl := length_word32be_append proto tail
  have h4 : 4 ≤ (word32be proto ++ tail).length := by omega
  have hM : (word32be proto ++ tail).length ≤ MAX_STARTUP_PACKET_LENGTH := by
    unfold MAX_STARTUP_PACKET_LENGTH at hlen ⊢
    omega
  have hc' : protoOf (word32be proto ++ tail) ≠ CANCEL_REQUEST_CODE := by
    rw [hp]
    exact hc
  have hn' : ¬ (protoOf (word32be proto ++ tail) = NEGOTIATE_SSL_CODE ∧
      SSLdone = false) := by
    rintro ⟨hh, _⟩
    rw [hp] at hh
    exact hnn hh
  rw [psp_version_path cfg SSLdone (word32be proto ++ tail) [] h4 hM hc' hn']
  simp only [hp]
  refine ⟨?_, by first | rfl | trivial⟩
  by_cases hu : unsupportedVersion proto = true
  · rw [if_pos hu]
    exact iff_of_true rfl ((unsupported_iff proto).mp hu)
  · rw [if_neg hu]
    refine iff_of_false ?_ (fun hcond => hu ((unsupported_iff proto).mpr hcond))
    split_ifs
    · simp
    · exact finishStartup_ne_unsupported _ _ _
    · exact finishStartup_ne_unsupported _ _ _

/-- C6 witness: version 4.0 is rejected as unsupported, and version 2.0
is not rejected and is recorded as the connection's protocol version. -/
theorem version_check_boundaries_witness :
    (ProcessStartupPacket ⟨false, true, true, true, false, .CAC_OK⟩
        [word32be (PG_PROTOCOL 4 0) ++ []] false).result =
      .fatal .unsupportedProtocol ∧
    (ProcessStartupPacket ⟨false, true, true, true, false, .CAC_OK⟩
        [word32be (PG_PROTOCOL 2 0) ++ []] false).frontendProtocol =
      some (PG_PROTOCOL 2 0) :=
  ⟨(version_check_boundaries ⟨false, true, true, true, false, .CAC_OK⟩ false
        (PG_PROTOCOL 4 0) [] (by decide) (by decide) (by decide)
        (by decide)).1.mpr (Or.inr (Or.inl (by decide))),
    (version_check_boundaries ⟨false, true, true, true, false, .CAC_OK⟩ false
        (PG_PROTOCOL 2 0) [] (by decide) (by decide) (by decide)
        (by decide)).2⟩

/-- C7: a secure-negotiation request is answered with exactly one ASCII
byte, 'S' iff secure transport is enabled and the local endpoint is not
a Unix socket, 'N' otherwise; on a Unix-domain endpoint the reply is
always 'N' and the subsequent startup message is then processed normally
(any non-negotiation message is processed exactly as a fresh one). -/
theorem ssl_negotiation_single_byte (cfg : ChildCfg) (tail : List Nat)
    (rest : List (List Nat))
    (hlen : tail.length ≤ MAX_STARTUP_PACKET_LENGTH - 4) :
    ((ProcessStartupPacket cfg ((word32be NEGOTIATE_SSL_CODE ++ tail) :: rest)
        false).sslReplies = [sslResponseByte cfg]) ∧
    ((ProcessStartupPacket cfg ((word32be NEGOTIATE_SSL_CODE ++ tail) :: rest)
        false).sslReplies = ['S'] ↔
      cfg.EnableSSL = true ∧ cfg.laddrIsUnix = false) ∧
    (cfg.laddrIsUnix = true →
      (ProcessStartupPacket cfg ((word32be NEGOTIATE_SSL_CODE ++ tail) :: rest)
        false).sslReplies = ['N']) ∧
    (cfg.laddrIsUnix = true → cfg.sendOk = true →
      (ProcessStartupPacket cfg ((word32be NEGOTIATE_SSL_CODE ++ tail) :: rest)
          false).result = (ProcessStartupPacket cfg rest true).result) ∧
    (∀ body rest2, protoOf body ≠ NEGOTIATE_SSL_CODE →
      ProcessStartupPacket cfg (body :: rest2) true =
        ProcessStartupPacket cfg (body :: rest2) false) := by
  have hstep := psp_negotiate_step cfg tail rest hlen
  have hone : (ProcessStartupPacket cfg
      ((word32be NEGOTIATE_SSL_CODE ++ tail) :: rest) false).sslReplies =
      [sslResponseByte cfg] := by
    rw [hstep]
    split_ifs <;> simp [psp_done_sslReplies]
  refine ⟨hone, ?_, ?_, ?_, fun b r2 h => psp_ssldone_irrelevant cfg b r2 h⟩
  · rw [hone]
    unfold sslResponseByte
    by_cases hcase : cfg.EnableSSL ∧ cfg.laddrIsUnix = false
    · rw [if_pos hcase]
      exact iff_of_true rfl ⟨hcase.1, hcase.2⟩
    · rw [if_neg hcase]
      refine iff_of_false (by simp) (fun hAnd => hcase ⟨hAnd.1, hAnd.2⟩)
  · intro hunix
    have hN : sslResponseByte cfg = 'N' := by
      unfold sslResponseByte
      rw [if_neg]
      rintro ⟨_, hfu⟩
      rw [hunix] at hfu
      exact absurd hfu (by decide)
    rw [hone, hN]
  · intro hunix hsend
    have hN : sslResponseByte cfg = 'N' := by
      unfold sslResponseByte
      rw [if_neg]
      rintro ⟨_, hfu⟩
      rw [hunix] at hfu
      exact absurd hfu (by decide)
    rw [hstep]
    rw [if_neg (by simp [hsend])]
    rw [if_neg (by rintro ⟨hS, _⟩; rw [hN] at hS; exact absurd hS (by decide))]

/-- C7 witness: on a Unix-domain endpoint with SSL enabled, a concrete
negotiation followed by a 3.0 startup message is answered 'N' and the
second message is processed as the connection's startup packet. -/
theorem ssl_negotiation_single_byte_witness :
    (ProcessStartupPacket ⟨true, true, true, true, false, .CAC_OK⟩
        [word32be NEGOTIATE_SSL_CODE ++ [], word32be (PG_PROTOCOL 3 0) ++ [0]]
        false).sslReplies = ['N'] ∧
    (ProcessStartupPacket ⟨true, true, true, true, false, .CAC_OK⟩
        [word32be NEGOTIATE_SSL_CODE ++ [], word32be (PG_PROTOCOL 3 0) ++ [0]]
        false).result =
      (ProcessStartupPacket ⟨true, true, true, true, false, .CAC_OK⟩
        [word32be (PG_PROTOCOL 3 0) ++ [0]] true).result :=
  ⟨(ssl_negotiation_single_byte ⟨true, true, true, true, false, .CAC_OK⟩ []
      [word32be (PG_PROTOCOL 3 0) ++ [0]] (by decide)).2.2.1 rfl,
    (ssl_negotiation_single_byte ⟨true, true, true, true, false, .CAC_OK⟩ []
      [word32be (PG_PROTOCOL 3 0) ++ [0]] (by decide)).2.2.2.1 rfl rfl⟩

/-- C9 (code-bug evaluation): the version-3.0 packet whose body is
"user\0a\0" followed by the single stray byte 'x' has no empty-name
terminator (its last declared byte is 120, not NUL), yet the scan stops
at offset 11 = len - 1 on the missing-value break, the final
terminator-position check passes, and the packet is accepted with user
"a" — no protocol violation is raised, although the source comments
"missing value, will complain below" and "If we didn't find a packet
terminator exactly at the end of the given packet length, complain". -/
theorem missing_terminator_accepted :
    (word32be (PG_PROTOCOL 3 0) ++ strBytes "user" ++ [0] ++ strBytes "a" ++
        [0, 120]).getLast? ≠ some 0 ∧
    (parseLoop
        (word32be (PG_PROTOCOL 3 0) ++ strBytes "user" ++ [0] ++
          strBytes "a" ++ [0, 120])
        12 4 emptyGuc).1 = 11 ∧
    byteAt (word32be (PG_PROTOCOL 3 0) ++ strBytes "user" ++ [0] ++
        strBytes "a" ++ [0, 120]) 11 = 120 ∧
    (ProcessStartupPacket ⟨false, true, true, true, false, .CAC_OK⟩
        [word32be (PG_PROTOCOL 3 0) ++ strBytes "user" ++ [0] ++
          strBytes "a" ++ [0, 120]]
        false).result =
      .accepted ⟨PG_PROTOCOL 3 0, [97], [97], none, []⟩ := by
  decide

/-- C10: when several reject conditions hold, the admission verdict
follows the fixed precedence shutting-down over starting-up over
in-recovery over saturated; in particular a connection arriving during a
shutdown while a startup child is present is rejected as shutting down. -/
theorem admission_verdict_precedence (s : PMState) :
    (condShutdown s → canAcceptConnections s = .CAC_SHUTDOWN) ∧
    (¬ condShutdown s ∧ condStartup s →
      canAcceptConnections s = .CAC_STARTUP) ∧
    (¬ condShutdown s ∧ ¬ condStartup s ∧ condRecovery s →
      canAcceptConnections s = .CAC_RECOVERY) ∧
    (¬ condShutdown s ∧ ¬ condStartup s ∧ ¬ condRecovery s ∧ condSaturated s →
      canAcceptConnections s = .CAC_TOOMANY) ∧
    (condShutdown s ∧ condStartup s →
      canAcceptConnections s = .CAC_SHUTDOWN) := by
  unfold canAcceptConnections condStartup condShutdown condRecovery condSaturated
  split_ifs <;> refine ⟨?_, ?_, ?_, ?_, ?_⟩ <;> simp_all

/-- C10 witness: a state that is both shutting down and has a startup
child present is rejected as shutting down, not as starting up. -/
theorem admission_verdict_precedence_witness :
    canAcceptConnections ⟨1, 7, 9, 0, 0, 0, true, [], 0, false, false⟩ =
      .CAC_SHUTDOWN :=
  (admission_verdict_precedence
    ⟨1, 7, 9, 0, 0, 0, true, [], 0, false, false⟩).2.2.2.2 ⟨by decide, by decide⟩

end Postmaster
